import Mathlib

/-!
Verification of the openweather client library (src/src/lib.rs).

The library builds HTTP GET request URLs for the OpenWeatherMap API and
decodes JSON responses through a two-stage "fetch and disambiguate"
routine `get`.  The embedding below mirrors `lib.rs` directly.  The
modules `location`, `parameters` and `weather_types` are declared in
`lib.rs` but their files are not part of the sources; the definitions
coming from them are modelled from the specification and marked as such.

External effects (URL parsing, HTTP transport, JSON decoding) are out of
scope of the library itself; they are modelled as an explicit environment
of functions, so that every library function is a pure function of its
arguments and the environment.
-/

namespace Openweather

/-- Opaque message of a `serde_json::Error`. -/
abbrev JsonError := String

/-- Opaque message of an `http_req::error::Error`. -/
abbrev HttpError := String

/-- Opaque message of a `url::ParseError`. -/
abbrev UrlError := String

/-- Modelled from the spec: `ErrorReport` (declared in the missing module
`weather_types`) is "a typed shape mirroring the API's error JSON
(code + message)". -/
structure ErrorReport where
  code : Nat
  message : String
deriving DecidableEq, Repr

/-- The `Error` enum of `lib.rs`: API-reported domain error, plain JSON
parse error, combined dual parse error, transport error, malformed input,
URL construction error. -/
inductive Error where
  | Api (report : ErrorReport)
  | Parsing (e : JsonError)
  | Parsing2 (e_report : JsonError) (e_weather : JsonError)
  | Connection (e : HttpError)
  | Input (msg : String)
  | UrlParsing (e : UrlError)
deriving DecidableEq, Repr

/-- The external world seen by the library, for a success schema `T`:
`url::Url::parse_with_params`, the HTTP transport (returning the response
body collected as text), and the two serde decoders. -/
structure HttpEnv (T : Type) where
  urlParse : String → List (String × String) → Except UrlError String
  fetch : String → Except HttpError String
  decodeT : String → Except JsonError T
  decodeErr : String → Except JsonError ErrorReport

/-- The fetch-and-disambiguate routine `get` of `lib.rs` (lines 43-63):
perform the HTTP GET, then try to decode the body as `T`; on failure try
to decode it as `ErrorReport`; if that succeeds the result is
`Error.Api`, otherwise `Error.Parsing2` carrying both decode failures
(in the source, the report failure first and the weather failure
second). -/
def get {T : Type} (env : HttpEnv T) (url : String) : Except Error T :=
  match env.fetch url with
  | .error e => .error (.Connection e)
  | .ok body =>
    match env.decodeT body with
    | .ok val => .ok val
    | .error e_weather =>
      match env.decodeErr body with
      | .ok err_report => .error (.Api err_report)
      | .error e_report => .error (.Parsing2 e_report e_weather)

/-- Whether a library result is the malformed-input error `Error::Input`. -/
def resultIsInput {T : Type} : Except Error T → Bool
  | .error (.Input _) => true
  | _ => false

/-- Whether a library result is the plain parse error `Error::Parsing`. -/
def resultIsPlainParsing {T : Type} : Except Error T → Bool
  | .error (.Parsing _) => true
  | _ => false

/-- The fixed API base path, `API_BASE` (lib.rs line 20). -/
def API_BASE : String := "https://api.openweathermap.org/data/2.5/"

/-- Rust `f64` values are modelled opaquely by their `Display` rendering:
no claim depends on floating-point arithmetic, only on where the rendered
value is placed in the query string (`format!` renders it verbatim). -/
abbrev F64 := String

/-- Modelled from the spec: `Coordinates` (missing module `weather_types`)
is "a pair of floating-point latitude/longitude, no range validation
performed by this layer". -/
structure Coordinates where
  lat : F64
  lon : F64
deriving DecidableEq, Repr

/-- `time::Timespec`: whole seconds since the epoch plus a nanosecond part.
The library serializes only the integral `sec` field. -/
structure Timespec where
  sec : Int
  nsec : Int
deriving DecidableEq, Repr

/-- Modelled from the spec: the unit system of the missing module
`parameters` — "optional unit system (metric/imperial/standard)". -/
inductive Unit where
  | standard
  | metric
  | imperial
deriving DecidableEq, Repr

/-- Modelled from the spec: rendering of a unit choice as a query value. -/
def Unit.format : Unit → String
  | .standard => "standard"
  | .metric => "metric"
  | .imperial => "imperial"

/-- Modelled from the spec: a language code accepted by the API (missing
module `parameters`). -/
structure Language where
  code : String
deriving DecidableEq, Repr

/-- Modelled from the spec: `Settings` — "optional unit system
(metric/imperial/standard) and optional language code; absence means use
API default". -/
structure Settings where
  unit : Option Unit
  lang : Option Language
deriving DecidableEq, Repr

/-- Modelled from the spec: `Settings::format` produces the optional unit
and language query fields; an absent setting contributes no parameter. -/
def Settings.format (s : Settings) : List (String × String) :=
  (match s.unit with
   | some u => [("units", u.format)]
   | none => []) ++
  (match s.lang with
   | some l => [("lang", l.code)]
   | none => [])

/-- Modelled from the spec: `LocationSpecifier` (missing module
`location`) is "a closed set of variants (city name, city+country,
coordinates, city ID, zip+country)". -/
inductive LocationSpecifier where
  | CityName (city : String)
  | CityAndCountryName (city : String) (country : String)
  | CityId (id : String)
  | Coord (coordinates : Openweather.Coordinates)
  | ZipCode (zip : String) (country : String)
deriving DecidableEq, Repr

/-- Modelled from the spec: `LocationSpecifier::format` — each variant
"serializes to a specific subset of query parameters"; per the spec's
testable properties, a city/country location serializes to a city field
and a country field. -/
def LocationSpecifier.format : LocationSpecifier → List (String × String)
  | .CityName city => [("city", city)]
  | .CityAndCountryName city country => [("city", city), ("country", country)]
  | .CityId id => [("id", id)]
  | .Coord c => [("lat", c.lat), ("lon", c.lon)]
  | .ZipCode zip country => [("zip", zip), ("country", country)]

/-- Modelled from the spec: opaque decoded payload of the current-weather
endpoint (missing module `weather_types`); no claim inspects its fields. -/
structure WeatherReportCurrent where
  payload : String
deriving DecidableEq, Repr

/-- Modelled from the spec: opaque decoded payload of the 5-day forecast
endpoint (missing module `weather_types`). -/
structure WeatherReport5Day where
  payload : String
deriving DecidableEq, Repr

/-- Modelled from the spec: opaque decoded payload of the 16-day forecast
endpoint (missing module `weather_types`). -/
structure WeatherReport16Day where
  payload : String
deriving DecidableEq, Repr

/-- Modelled from the spec: opaque decoded payload of the one-call current
endpoint (missing module `weather_types`). -/
structure WeatherReportOneCall where
  payload : String
deriving DecidableEq, Repr

/-- Modelled from the spec: opaque decoded payload of the one-call
historical endpoint (missing module `weather_types`). -/
structure WeatherReportOneCallHistorical where
  payload : String
deriving DecidableEq, Repr

/-- Modelled from the spec: opaque decoded payload of the historical city
data endpoint (missing module `weather_types`). -/
structure WeatherReportHistorical where
  payload : String
deriving DecidableEq, Repr

/-- Modelled from the spec: opaque decoded payload of the accumulated
temperature endpoint (missing module `weather_types`). -/
structure WeatherAccumulatedTemperature where
  payload : String
deriving DecidableEq, Repr

/-- Modelled from the spec: opaque decoded payload of the accumulated
precipitation endpoint (missing module `weather_types`). -/
structure WeatherAccumulatedPrecipitation where
  payload : String
deriving DecidableEq, Repr

/-- Modelled from the spec: opaque decoded payload of the current UV index
endpoint (missing module `weather_types`). -/
structure UvIndex where
  payload : String
deriving DecidableEq, Repr

/-- Modelled from the spec: opaque decoded payload of the UV forecast
endpoint (missing module `weather_types`). -/
structure ForecastUvIndex where
  payload : String
deriving DecidableEq, Repr

/-- Modelled from the spec: opaque decoded payload of the historical UV
index endpoint (missing module `weather_types`). -/
structure HistoricalUvIndex where
  payload : String
deriving DecidableEq, Repr

/-- A request as handed to `Url::parse_with_params`: the base URL string
and the ordered query parameter sequence. -/
structure Request where
  base : String
  params : List (String × String)
deriving DecidableEq, Repr

/-- Shared tail of every endpoint function: serialize the request to a URL
(a `url::ParseError` becomes `Error.UrlParsing` through the `?`
conversion) and run `get` on the resulting URL. -/
def runRequest {T : Type} (env : HttpEnv T) (r : Request) : Except Error T :=
  match env.urlParse r.base r.params with
  | .error e => .error (.UrlParsing e)
  | .ok url => get env url

/-- Request built by `get_current_weather` (lib.rs lines 65-79): suffix
`weather`; location parameters, then `APPID`, then settings. -/
def current_weather_request (location : LocationSpecifier) (key : String)
    (settings : Settings) : Request :=
  { base := API_BASE ++ "weather"
    params := location.format ++ [("APPID", key)] ++ settings.format }

/-- `get_current_weather` (lib.rs lines 65-79). -/
def get_current_weather (env : HttpEnv WeatherReportCurrent)
    (location : LocationSpecifier) (key : String) (settings : Settings) :
    Except Error WeatherReportCurrent :=
  runRequest env (current_weather_request location key settings)

/-- Request built by `get_5_day_forecast` (lib.rs lines 81-95). -/
def five_day_forecast_request (location : LocationSpecifier) (key : String)
    (settings : Settings) : Request :=
  { base := API_BASE ++ "forecast"
    params := location.format ++ [("APPID", key)] ++ settings.format }

/-- `get_5_day_forecast` (lib.rs lines 81-95). -/
def get_5_day_forecast (env : HttpEnv WeatherReport5Day)
    (location : LocationSpecifier) (key : String) (settings : Settings) :
    Except Error WeatherReport5Day :=
  runRequest env (five_day_forecast_request location key settings)

/-- Request built by `get_16_day_forecast` after the bounds check
(lib.rs lines 97-118): suffix `forecast/daily`; location parameters, then
`cnt`, `APPID`, settings. -/
def forecast_16_day_request (location : LocationSpecifier) (key : String)
    (len : Nat) (settings : Settings) : Request :=
  { base := API_BASE ++ "forecast/daily"
    params := location.format
      ++ [("cnt", toString len), ("APPID", key)] ++ settings.format }

/-- `get_16_day_forecast` (lib.rs lines 97-118), including the bounds
check `len > 16 || len == 0` and its error message. `len` is a `u8`,
modelled as `Nat`; only comparison and rendering are performed on it. -/
def get_16_day_forecast (env : HttpEnv WeatherReport16Day)
    (location : LocationSpecifier) (key : String) (len : Nat)
    (settings : Settings) : Except Error WeatherReport16Day :=
  if len > 16 || len == 0 then
    .error (.Input
      ("Only support 1 to 16 day forecasts but " ++ toString len
        ++ " requested"))
  else
    runRequest env (forecast_16_day_request location key len settings)

/-- Request built by `get_one_call_current` (lib.rs lines 120-136): suffix
`onecall`; settings parameters first, then `lat`, `lon`, the fixed
`exclude` field, and `APPID`. -/
def one_call_current_request (coordinates : Coordinates) (key : String)
    (settings : Settings) : Request :=
  { base := API_BASE ++ "onecall"
    params := settings.format
      ++ [("lat", coordinates.lat), ("lon", coordinates.lon),
          ("exclude", "minutely,hourly"), ("APPID", key)] }

/-- `get_one_call_current` (lib.rs lines 120-136). -/
def get_one_call_current (env : HttpEnv WeatherReportOneCall)
    (coordinates : Coordinates) (key : String) (settings : Settings) :
    Except Error WeatherReportOneCall :=
  runRequest env (one_call_current_request coordinates key settings)

/-- Request built by `get_one_call_historical` (lib.rs lines 138-155):
suffix `onecall/timemachine`; settings parameters first, then `lat`,
`lon`, `dt`, `APPID`. `dt` is a `u64`, modelled as `Nat`. -/
def one_call_historical_request (coordinates : Coordinates) (dt : Nat)
    (key : String) (settings : Settings) : Request :=
  { base := API_BASE ++ "onecall/timemachine"
    params := settings.format
      ++ [("lat", coordinates.lat), ("lon", coordinates.lon),
          ("dt", toString dt), ("APPID", key)] }

/-- `get_one_call_historical` (lib.rs lines 138-155). -/
def get_one_call_historical (env : HttpEnv WeatherReportOneCallHistorical)
    (coordinates : Coordinates) (dt : Nat) (key : String)
    (settings : Settings) : Except Error WeatherReportOneCallHistorical :=
  runRequest env (one_call_historical_request coordinates dt key settings)

/-- Request built by `get_historical_data` (lib.rs lines 157-176): suffix
`history/city`; location parameters, then `type=hour`, `start` and `end`
as the integral `sec` fields, `APPID`, settings. -/
def historical_data_request (location : LocationSpecifier) (key : String)
    (start stop : Timespec) (settings : Settings) : Request :=
  { base := API_BASE ++ "history/city"
    params := location.format
      ++ [("type", "hour"), ("start", toString start.sec),
          ("end", toString stop.sec), ("APPID", key)]
      ++ settings.format }

/-- `get_historical_data` (lib.rs lines 157-176). -/
def get_historical_data (env : HttpEnv WeatherReportHistorical)
    (location : LocationSpecifier) (key : String) (start stop : Timespec)
    (settings : Settings) : Except Error WeatherReportHistorical :=
  runRequest env (historical_data_request location key start stop settings)

/-- Request built by `get_accumulated_temperature_data`
(lib.rs lines 178-199): suffix `history/accumulated_temperature`;
location parameters, then `type=hour`, `start`, `end`, `threshold`,
`APPID`, settings. `threshold` is a `u32`, modelled as `Nat`. -/
def accumulated_temperature_request (location : LocationSpecifier)
    (key : String) (start stop : Timespec) (threshold : Nat)
    (settings : Settings) : Request :=
  { base := API_BASE ++ "history/accumulated_temperature"
    params := location.format
      ++ [("type", "hour"), ("start", toString start.sec),
          ("end", toString stop.sec), ("threshold", toString threshold),
          ("APPID", key)]
      ++ settings.format }

/-- `get_accumulated_temperature_data` (lib.rs lines 178-199). -/
def get_accumulated_temperature_data
    (env : HttpEnv WeatherAccumulatedTemperature)
    (location : LocationSpecifier) (key : String) (start stop : Timespec)
    (threshold : Nat) (settings : Settings) :
    Except Error WeatherAccumulatedTemperature :=
  runRequest env
    (accumulated_temperature_request location key start stop threshold
      settings)

/-- Request built by `get_accumulated_precipitation_data`
(lib.rs lines 201-222): suffix `history/accumulated_precipitation`;
same parameter layout as the accumulated-temperature endpoint. -/
def accumulated_precipitation_request (location : LocationSpecifier)
    (key : String) (start stop : Timespec) (threshold : Nat)
    (settings : Settings) : Request :=
  { base := API_BASE ++ "history/accumulated_precipitation"
    params := location.format
      ++ [("type", "hour"), ("start", toString start.sec),
          ("end", toString stop.sec), ("threshold", toString threshold),
          ("APPID", key)]
      ++ settings.format }

/-- `get_accumulated_precipitation_data` (lib.rs lines 201-222). -/
def get_accumulated_precipitation_data
    (env : HttpEnv WeatherAccumulatedPrecipitation)
    (location : LocationSpecifier) (key : String) (start stop : Timespec)
    (threshold : Nat) (settings : Settings) :
    Except Error WeatherAccumulatedPrecipitation :=
  runRequest env
    (accumulated_precipitation_request location key start stop threshold
      settings)

/-- Request built by `get_current_uv_index` (lib.rs lines 224-238):
suffix `uvi`; location parameters, then `APPID`, settings. -/
def current_uv_request (location : LocationSpecifier) (key : String)
    (settings : Settings) : Request :=
  { base := API_BASE ++ "uvi"
    params := location.format ++ [("APPID", key)] ++ settings.format }

/-- `get_current_uv_index` (lib.rs lines 224-238). -/
def get_current_uv_index (env : HttpEnv UvIndex)
    (location : LocationSpecifier) (key : String) (settings : Settings) :
    Except Error UvIndex :=
  runRequest env (current_uv_request location key settings)

/-- Request built by `get_forecast_uv_index` after the bounds check
(lib.rs lines 240-261): suffix `uvi/forecast`; location parameters, then
`cnt`, `APPID`, settings. -/
def forecast_uv_request (location : LocationSpecifier) (key : String)
    (len : Nat) (settings : Settings) : Request :=
  { base := API_BASE ++ "uvi/forecast"
    params := location.format
      ++ [("cnt", toString len), ("APPID", key)] ++ settings.format }

/-- `get_forecast_uv_index` (lib.rs lines 240-261), including the bounds
check `len > 8 || len == 0` and its error message. -/
def get_forecast_uv_index (env : HttpEnv ForecastUvIndex)
    (location : LocationSpecifier) (key : String) (len : Nat)
    (settings : Settings) : Except Error ForecastUvIndex :=
  if len > 8 || len == 0 then
    .error (.Input
      ("Only support 1 to 8 day forecasts but " ++ toString len
        ++ " requested"))
  else
    runRequest env (forecast_uv_request location key len settings)

/-- Request built by `get_historical_uv_index` (lib.rs lines 263-281):
suffix `uvi/history`; location parameters, then `start` and `end` as the
integral `sec` fields, `APPID`, settings. -/
def historical_uv_request (location : LocationSpecifier) (key : String)
    (start stop : Timespec) (settings : Settings) : Request :=
  { base := API_BASE ++ "uvi/history"
    params := location.format
      ++ [("start", toString start.sec), ("end", toString stop.sec),
          ("APPID", key)]
      ++ settings.format }

/-- `get_historical_uv_index` (lib.rs lines 263-281). -/
def get_historical_uv_index (env : HttpEnv HistoricalUvIndex)
    (location : LocationSpecifier) (key : String) (start stop : Timespec)
    (settings : Settings) : Except Error HistoricalUvIndex :=
  runRequest env (historical_uv_request location key start stop settings)

/-- A concrete environment (URL serialization and fetch succeed, both
decoders fail), used to instantiate universally quantified statements at
a specific external world. -/
def sampleEnv (T : Type) : HttpEnv T :=
  ⟨fun _ _ => .ok "u", fun _ => .ok "b", fun _ => .error "w",
    fun _ => .error "r"⟩

end Openweather

namespace Openweather

/-- C1: if the response body decodes as the success schema `T`, `get`
returns `Ok` with exactly the decoded value.  The environment's
error-report decoder is completely unconstrained, reflecting that the
error-report decode is never attempted on this path. -/
theorem get_success_returns_decoded {T : Type} (env : HttpEnv T)
    (url body : String) (v : T)
    (hfetch : env.fetch url = .ok body)
    (hdec : env.decodeT body = .ok v) :
    get env url = .ok v := by
  simp [get, hfetch, hdec]

/-- Witness for C1 at a concrete environment and body. -/
theorem get_success_returns_decoded_witness :
    get (T := Nat)
      ⟨fun _ _ => .ok "u", fun _ => .ok "{body}", fun _ => .ok 7,
        fun _ => .error "no report"⟩ "u" = .ok 7 :=
  get_success_returns_decoded _ "u" "{body}" 7 rfl rfl

/-- C2: if the body fails to decode as `T` but decodes as `ErrorReport`,
`get` fails with `Error.Api` carrying the decoded report. -/
theorem get_error_report_returns_api {T : Type} (env : HttpEnv T)
    (url body : String) (ew : JsonError) (report : ErrorReport)
    (hfetch : env.fetch url = .ok body)
    (hdec : env.decodeT body = .error ew)
    (hrep : env.decodeErr body = .ok report) :
    get env url = .error (.Api report) := by
  simp [get, hfetch, hdec, hrep]

/-- Witness for C2 at a concrete environment and body. -/
theorem get_error_report_returns_api_witness :
    get (T := Nat)
      ⟨fun _ _ => .ok "u", fun _ => .ok "b", fun _ => .error "bad weather",
        fun _ => .ok ⟨401, "Invalid API key"⟩⟩ "u"
      = .error (.Api ⟨401, "Invalid API key"⟩) :=
  get_error_report_returns_api _ "u" "b" "bad weather" ⟨401, "Invalid API key"⟩
    rfl rfl rfl

/-- C3: if the body decodes as neither `T` nor `ErrorReport`, `get` fails
with `Error.Parsing2` carrying both decode failures (report failure in
the first slot, success-schema failure in the second, as in the source),
and in particular never returns `Ok`. -/
theorem get_double_failure_returns_parsing2 {T : Type} (env : HttpEnv T)
    (url body : String) (ew er : JsonError)
    (hfetch : env.fetch url = .ok body)
    (hdec : env.decodeT body = .error ew)
    (hrep : env.decodeErr body = .error er) :
    get env url = .error (.Parsing2 er ew) ∧ ∀ v : T, get env url ≠ .ok v := by
  simp [get, hfetch, hdec, hrep]

/-- Witness for C3 at a concrete environment and body. -/
theorem get_double_failure_returns_parsing2_witness :
    get (T := Nat)
      ⟨fun _ _ => .ok "u", fun _ => .ok "b", fun _ => .error "bad weather",
        fun _ => .error "bad report"⟩ "u"
      = .error (.Parsing2 "bad report" "bad weather") :=
  (get_double_failure_returns_parsing2 _ "u" "b" "bad weather" "bad report"
    rfl rfl rfl).1

/-- C9: the plain `Error.Parsing` variant is unreachable through `get`:
whatever the environment produces, the result is never `Error.Parsing`.
A decode failure only surfaces as `Error.Api` or `Error.Parsing2`. -/
theorem get_never_plain_parsing {T : Type} (env : HttpEnv T) (url : String) :
    resultIsPlainParsing (get env url) = false := by
  cases hf : env.fetch url with
  | error e => simp [get, resultIsPlainParsing, hf]
  | ok body =>
    cases hd : env.decodeT body with
    | ok v => simp [get, resultIsPlainParsing, hf, hd]
    | error ew =>
      cases hr : env.decodeErr body with
      | ok r => simp [get, resultIsPlainParsing, hf, hd, hr]
      | error er => simp [get, resultIsPlainParsing, hf, hd, hr]

/-- Helper: `get` can only produce `Ok`, `Connection`, `Api` or
`Parsing2`; in particular never the malformed-input variant. -/
theorem resultIsInput_get {T : Type} (env : HttpEnv T) (url : String) :
    resultIsInput (get env url) = false := by
  cases hf : env.fetch url with
  | error e => simp [get, resultIsInput, hf]
  | ok body =>
    cases hd : env.decodeT body with
    | ok v => simp [get, resultIsInput, hf, hd]
    | error ew =>
      cases hr : env.decodeErr body with
      | ok r => simp [get, resultIsInput, hf, hd, hr]
      | error er => simp [get, resultIsInput, hf, hd, hr]

/-- Helper: running a built request never produces the malformed-input
variant either: URL serialization failure surfaces as `UrlParsing`, and
everything past it goes through `get`. -/
theorem resultIsInput_runRequest {T : Type} (env : HttpEnv T)
    (r : Request) : resultIsInput (runRequest env r) = false := by
  cases hp : env.urlParse r.base r.params with
  | error e => simp [runRequest, resultIsInput, hp]
  | ok url =>
    unfold runRequest
    rw [hp]
    exact resultIsInput_get env url

/-- C4: the day-count bounds checks.  When `len` is 0 or above the
endpoint maximum (16 for the daily forecast, 8 for the UV forecast), the
function returns `Error.Input` with the source's message; the result is
the same for every environment, so no network request is consulted.  For
in-range `len`, no malformed-input error is produced. -/
theorem day_count_bounds_check
    (env16 : HttpEnv WeatherReport16Day) (env8 : HttpEnv ForecastUvIndex)
    (location : LocationSpecifier) (key : String) (len : Nat)
    (settings : Settings) :
    ((len = 0 ∨ len > 16) →
      get_16_day_forecast env16 location key len settings
        = .error (.Input ("Only support 1 to 16 day forecasts but "
            ++ toString len ++ " requested"))) ∧
    ((len = 0 ∨ len > 8) →
      get_forecast_uv_index env8 location key len settings
        = .error (.Input ("Only support 1 to 8 day forecasts but "
            ++ toString len ++ " requested"))) ∧
    (1 ≤ len → len ≤ 16 →
      resultIsInput (get_16_day_forecast env16 location key len settings)
        = false) ∧
    (1 ≤ len → len ≤ 8 →
      resultIsInput (get_forecast_uv_index env8 location key len settings)
        = false) := by
  refine ⟨?_, ?_, ?_, ?_⟩
  · intro h
    have hc : (len > 16 || len == 0) = true := by
      rcases h with h | h <;> simp [h]
    simp [get_16_day_forecast, hc]
  · intro h
    have hc : (len > 8 || len == 0) = true := by
      rcases h with h | h <;> simp [h]
    simp [get_forecast_uv_index, hc]
  · intro h1 h2
    have hc : (len > 16 || len == 0) = false := by
      simp only [Bool.or_eq_false_iff, decide_eq_false_iff_not,
        Nat.not_lt, beq_eq_false_iff_ne, ne_eq]
      omega
    rw [get_16_day_forecast, hc]
    exact resultIsInput_runRequest env16 _
  · intro h1 h2
    have hc : (len > 8 || len == 0) = false := by
      simp only [Bool.or_eq_false_iff, decide_eq_false_iff_not,
        Nat.not_lt, beq_eq_false_iff_ne, ne_eq]
      omega
    rw [get_forecast_uv_index, hc]
    exact resultIsInput_runRequest env8 _

/-- Witness for C4 at concrete environments, `len` values 17, 0, 16 and
8, a concrete location, key and settings. -/
theorem day_count_bounds_check_witness :
    (get_16_day_forecast (sampleEnv WeatherReport16Day)
        (.CityName "Minneapolis") "KEY" 17 ⟨none, none⟩
      = .error (.Input "Only support 1 to 16 day forecasts but 17 requested")) ∧
    (get_forecast_uv_index (sampleEnv ForecastUvIndex)
        (.CityName "Minneapolis") "KEY" 0 ⟨none, none⟩
      = .error (.Input "Only support 1 to 8 day forecasts but 0 requested")) ∧
    (resultIsInput (get_16_day_forecast (sampleEnv WeatherReport16Day)
        (.CityName "Minneapolis") "KEY" 16 ⟨none, none⟩) = false) ∧
    (resultIsInput (get_forecast_uv_index (sampleEnv ForecastUvIndex)
        (.CityName "Minneapolis") "KEY" 8 ⟨none, none⟩) = false) :=
  ⟨(day_count_bounds_check (sampleEnv WeatherReport16Day)
      (sampleEnv ForecastUvIndex) (.CityName "Minneapolis") "KEY" 17
      ⟨none, none⟩).1 (by decide),
   (day_count_bounds_check (sampleEnv WeatherReport16Day)
      (sampleEnv ForecastUvIndex) (.CityName "Minneapolis") "KEY" 0
      ⟨none, none⟩).2.1 (by decide),
   (day_count_bounds_check (sampleEnv WeatherReport16Day)
      (sampleEnv ForecastUvIndex) (.CityName "Minneapolis") "KEY" 16
      ⟨none, none⟩).2.2.1 (by decide) (by decide),
   (day_count_bounds_check (sampleEnv WeatherReport16Day)
      (sampleEnv ForecastUvIndex) (.CityName "Minneapolis") "KEY" 8
      ⟨none, none⟩).2.2.2 (by decide) (by decide)⟩

/-- C5: for a city/country location, the parameter sequence built by
`get_current_weather` contains a city field, a country field and the
`APPID` field, and — whenever the key does not coincide with one of the
non-secret parameter values — the key appears in exactly the single
`APPID` parameter and under no other name. -/
theorem current_weather_key_placement
    (city country key : String) (settings : Settings)
    (hc : key ≠ city) (hcc : key ≠ country)
    (hs : key ∉ settings.format.map Prod.snd) :
    ("city", city) ∈ (current_weather_request
        (.CityAndCountryName city country) key settings).params ∧
    ("country", country) ∈ (current_weather_request
        (.CityAndCountryName city country) key settings).params ∧
    ("APPID", key) ∈ (current_weather_request
        (.CityAndCountryName city country) key settings).params ∧
    ((current_weather_request (.CityAndCountryName city country) key
        settings).params.filter (fun p => p.2 == key))
      = [("APPID", key)] := by
  refine ⟨?_, ?_, ?_, ?_⟩
  · simp [current_weather_request, LocationSpecifier.format]
  · simp [current_weather_request, LocationSpecifier.format]
  · simp [current_weather_request, LocationSpecifier.format]
  · have hsf : settings.format.filter (fun p => p.2 == key) = [] := by
      rw [List.filter_eq_nil_iff]
      intro p hp
      simp only [beq_iff_eq]
      intro hpk
      exact hs (List.mem_map.mpr ⟨p, hp, hpk⟩)
    simp [current_weather_request, LocationSpecifier.format,
      List.filter_append, hsf, Ne.symm hc, Ne.symm hcc]

/-- Witness for C5 at a concrete city, country, key and settings. -/
theorem current_weather_key_placement_witness :
    ("city", "Minneapolis") ∈ (current_weather_request
        (.CityAndCountryName "Minneapolis" "USA") "KEY"
        ⟨some .metric, none⟩).params ∧
    ("country", "USA") ∈ (current_weather_request
        (.CityAndCountryName "Minneapolis" "USA") "KEY"
        ⟨some .metric, none⟩).params ∧
    ("APPID", "KEY") ∈ (current_weather_request
        (.CityAndCountryName "Minneapolis" "USA") "KEY"
        ⟨some .metric, none⟩).params ∧
    ((current_weather_request (.CityAndCountryName "Minneapolis" "USA")
        "KEY" ⟨some .metric, none⟩).params.filter
          (fun p => p.2 == "KEY"))
      = [("APPID", "KEY")] :=
  current_weather_key_placement "Minneapolis" "USA" "KEY"
    ⟨some .metric, none⟩ (by decide) (by decide) (by decide)

/-- C6: request building is deterministic — two calls of
`get_current_weather` or `get_historical_data` with equal arguments build
equal requests (same base URL and the same parameter sequence, keys and
values in the same order). -/
theorem request_building_deterministic
    (l1 l2 : LocationSpecifier) (k1 k2 : String) (s1 s2 : Settings)
    (a1 a2 b1 b2 : Timespec)
    (hl : l1 = l2) (hk : k1 = k2) (hs : s1 = s2) (ha : a1 = a2)
    (hb : b1 = b2) :
    current_weather_request l1 k1 s1 = current_weather_request l2 k2 s2 ∧
    historical_data_request l1 k1 a1 b1 s1
      = historical_data_request l2 k2 a2 b2 s2 := by
  subst hl hk hs ha hb
  exact ⟨rfl, rfl⟩

/-- Witness for C6 at concrete equal argument pairs. -/
theorem request_building_deterministic_witness :
    current_weather_request (.CityName "Oslo") "KEY" ⟨none, none⟩
      = current_weather_request (.CityName "Oslo") "KEY" ⟨none, none⟩ ∧
    historical_data_request (.CityName "Oslo") "KEY" ⟨10, 0⟩ ⟨20, 0⟩
        ⟨none, none⟩
      = historical_data_request (.CityName "Oslo") "KEY" ⟨10, 0⟩ ⟨20, 0⟩
        ⟨none, none⟩ :=
  request_building_deterministic (.CityName "Oslo") (.CityName "Oslo")
    "KEY" "KEY" ⟨none, none⟩ ⟨none, none⟩ ⟨10, 0⟩ ⟨10, 0⟩ ⟨20, 0⟩ ⟨20, 0⟩
    rfl rfl rfl rfl rfl

/-- C7: every endpoint's base URL is the fixed `API_BASE` plus the
endpoint-specific suffix, and every date-range endpoint serializes the
bounds as the integral `sec` fields in the `start` and `end` query
parameters. -/
theorem fixed_base_and_epoch_second_bounds
    (location : LocationSpecifier) (coordinates : Coordinates)
    (key : String) (len dt threshold : Nat) (start stop : Timespec)
    (settings : Settings) :
    (current_weather_request location key settings).base
      = API_BASE ++ "weather" ∧
    (five_day_forecast_request location key settings).base
      = API_BASE ++ "forecast" ∧
    (forecast_16_day_request location key len settings).base
      = API_BASE ++ "forecast/daily" ∧
    (one_call_current_request coordinates key settings).base
      = API_BASE ++ "onecall" ∧
    (one_call_historical_request coordinates dt key settings).base
      = API_BASE ++ "onecall/timemachine" ∧
    (historical_data_request location key start stop settings).base
      = API_BASE ++ "history/city" ∧
    (accumulated_temperature_request location key start stop threshold
        settings).base
      = API_BASE ++ "history/accumulated_temperature" ∧
    (accumulated_precipitation_request location key start stop threshold
        settings).base
      = API_BASE ++ "history/accumulated_precipitation" ∧
    (current_uv_request location key settings).base = API_BASE ++ "uvi" ∧
    (forecast_uv_request location key len settings).base
      = API_BASE ++ "uvi/forecast" ∧
    (historical_uv_request location key start stop settings).base
      = API_BASE ++ "uvi/history" ∧
    (("start", toString start.sec)
        ∈ (historical_data_request location key start stop settings).params
      ∧ ("end", toString stop.sec)
        ∈ (historical_data_request location key start stop settings).params) ∧
    (("start", toString start.sec)
        ∈ (accumulated_temperature_request location key start stop
            threshold settings).params
      ∧ ("end", toString stop.sec)
        ∈ (accumulated_temperature_request location key start stop
            threshold settings).params) ∧
    (("start", toString start.sec)
        ∈ (accumulated_precipitation_request location key start stop
            threshold settings).params
      ∧ ("end", toString stop.sec)
        ∈ (accumulated_precipitation_request location key start stop
            threshold settings).params) ∧
    (("start", toString start.sec)
        ∈ (historical_uv_request location key start stop settings).params
      ∧ ("end", toString stop.sec)
        ∈ (historical_uv_request location key start stop settings).params) := by
  refine ⟨rfl, rfl, rfl, rfl, rfl, rfl, rfl, rfl, rfl, rfl, rfl,
    ⟨?_, ?_⟩, ⟨?_, ?_⟩, ⟨?_, ?_⟩, ⟨?_, ?_⟩⟩ <;>
    simp [historical_data_request, accumulated_temperature_request,
      accumulated_precipitation_request, historical_uv_request]

/-- C8: coordinates are passed through with no range validation — for
every coordinate pair (modelled by its rendered form) and every
environment, neither one-call function can produce `Error.Input`, and
the `lat`/`lon` values are placed in the query parameters
unconditionally. -/
theorem coordinates_passed_through_unvalidated
    (envC : HttpEnv WeatherReportOneCall)
    (envH : HttpEnv WeatherReportOneCallHistorical)
    (coordinates : Coordinates) (dt : Nat) (key : String)
    (settings : Settings) :
    resultIsInput (get_one_call_current envC coordinates key settings)
      = false ∧
    resultIsInput
        (get_one_call_historical envH coordinates dt key settings)
      = false ∧
    ("lat", coordinates.lat)
      ∈ (one_call_current_request coordinates key settings).params ∧
    ("lon", coordinates.lon)
      ∈ (one_call_current_request coordinates key settings).params ∧
    ("lat", coordinates.lat)
      ∈ (one_call_historical_request coordinates dt key settings).params ∧
    ("lon", coordinates.lon)
      ∈ (one_call_historical_request coordinates dt key settings).params := by
  refine ⟨resultIsInput_runRequest envC _, resultIsInput_runRequest envH _,
    ?_, ?_, ?_, ?_⟩ <;>
    simp [one_call_current_request, one_call_historical_request]

/-- C10: `get_one_call_current` always requests the consolidated payload
with `exclude=minutely,hourly`. -/
theorem one_call_current_always_excludes
    (coordinates : Coordinates) (key : String) (settings : Settings) :
    ("exclude", "minutely,hourly")
      ∈ (one_call_current_request coordinates key settings).params := by
  simp [one_call_current_request]

end Openweather
